import Mathlib

/-!
Shallow embedding of the SmartOfficeAssistant prompt-building and
response-evaluation pipeline (`evaluation_utils.py`, `simple_app.py`,
`email_utils.py`, `app.py`).  Python strings are modelled as `List Char`;
the Python string operations used by the code (`lower`, `in`, `split`,
`strip`, `join`, and the word-token regex of `re.findall`) are given executable
definitions below, and the evaluator / prompt builder are translated
function by function.
-/

set_option maxRecDepth 20000

/-- Python strings are modelled as lists of characters. -/
abbrev Str := List Char

/-- Convenience: the character list of a Lean string literal. -/
def str (s : String) : Str := s.data

/-- Python `str.lower()` (ASCII behaviour, which is all the code relies on). -/
def lower (s : Str) : Str := s.map Char.toLower

/-- Python substring test `needle in haystack`. -/
def containsB (n : Str) : Str → Bool
  | [] => n.isEmpty
  | c :: t => n.isPrefixOf (c :: t) || containsB n t

/-- Characters matched by `\w` in the regex `\b\w+\b` (ASCII behaviour). -/
def isWordChar (c : Char) : Bool := c.isAlphanum || c == '_'

/-- Whitespace recognised by Python `str.split()` / `str.strip()` (ASCII). -/
def isPySpace (c : Char) : Bool :=
  c == ' ' || c == '\t' || c == '\n' || c == '\r' || c == '\x0b' || c == '\x0c'

/-- Split a string into its maximal runs of characters satisfying `p`;
`acc` holds the (reversed) run currently being read. -/
def splitRunsAux (p : Char → Bool) : Str → Str → List Str
  | [], acc => if acc.isEmpty then [] else [acc.reverse]
  | c :: t, acc =>
    if p c then splitRunsAux p t (c :: acc)
    else if acc.isEmpty then splitRunsAux p t []
    else acc.reverse :: splitRunsAux p t []

/-- Maximal runs of characters satisfying `p`. -/
def splitRuns (p : Char → Bool) (s : Str) : List Str := splitRunsAux p s []

/-- Python `re.findall` with the word-boundary token regex: the maximal
word-character runs of `s`. -/
def findTokens (s : Str) : List Str := splitRuns isWordChar s

/-- Python `s.split()`: whitespace-separated words, empty words dropped. -/
def pySplit (s : Str) : List Str := splitRuns (fun c => !isPySpace c) s

/-- Python `sep.join(l)`. -/
def joinSep (sep : Str) : List Str → Str
  | [] => []
  | [x] => x
  | x :: y :: t => x ++ sep ++ joinSep sep (y :: t)

/-- Python `s.strip()`: drop leading and trailing whitespace. -/
def pyStrip (s : Str) : Str :=
  ((s.dropWhile isPySpace).reverse.dropWhile isPySpace).reverse

/-- The test `containsB` decides the sublist (substring) relation. -/
theorem containsB_iff (n : Str) : ∀ h : Str, containsB n h = true ↔ n <:+: h
  | [] => by
    simp [containsB, List.isEmpty_iff]
  | c :: t => by
    rw [containsB, Bool.or_eq_true, List.isPrefixOf_iff_prefix, containsB_iff n t,
      List.infix_cons_iff]

theorem infix_append_left {a l : Str} (r : Str) (h : a <:+: l) : a <:+: l ++ r := by
  obtain ⟨s, t, rfl⟩ := h
  exact ⟨s, t ++ r, by simp⟩

theorem infix_append_right {a r : Str} (l : Str) (h : a <:+: r) : a <:+: l ++ r := by
  obtain ⟨s, t, rfl⟩ := h
  exact ⟨l ++ s, t, by simp⟩

theorem infix_self (l : Str) : l <:+: l := ⟨[], [], by simp⟩

/-- Every element of `l` occurs inside `sep.join(l)`. -/
theorem infix_of_mem_joinSep (sep : Str) (l : List Str) (x : Str) (hx : x ∈ l) :
    x <:+: joinSep sep l := by
  induction l with
  | nil => cases hx
  | cons y t ih =>
    cases t with
    | nil =>
      rw [List.mem_singleton] at hx
      subst hx
      exact infix_self x
    | cons z t2 =>
      rw [joinSep]
      rcases List.mem_cons.mp hx with rfl | hx2
      · exact ⟨[], sep ++ joinSep sep (z :: t2), by simp⟩
      · exact infix_append_right _ (ih hx2)

theorem dropWhile_append_of_ne {p : Char → Bool} {a : Str} (b : Str)
    (h : a.dropWhile p ≠ []) : (a ++ b).dropWhile p = a.dropWhile p ++ b := by
  induction a with
  | nil => exact absurd rfl h
  | cons c t ih =>
    rw [List.dropWhile_cons] at h
    rw [List.cons_append, List.dropWhile_cons, List.dropWhile_cons]
    by_cases hc : p c
    · rw [if_pos hc] at h ⊢
      rw [if_pos hc]
      exact ih h
    · rw [if_neg hc] at h ⊢
      rw [if_neg hc]
      simp

/-- Stripping a concatenation whose first part keeps a non-space character
after its leading spaces and whose last part keeps one before its trailing
spaces only touches those two outer parts. -/
theorem pyStrip_append_append (a b c : Str) (ha : a.dropWhile isPySpace ≠ [])
    (hc : c.reverse.dropWhile isPySpace ≠ []) :
    pyStrip (a ++ (b ++ c)) =
      a.dropWhile isPySpace ++ (b ++ (c.reverse.dropWhile isPySpace).reverse) := by
  unfold pyStrip
  rw [dropWhile_append_of_ne (b ++ c) ha]
  rw [List.reverse_append, List.reverse_append, List.append_assoc]
  rw [dropWhile_append_of_ne _ hc]
  simp [List.reverse_append, List.append_assoc]

namespace EvaluationUtils

/-- The list `polite_phrases` from `check_polite_tone` in `evaluation_utils.py`. -/
def polite_phrases : List Str :=
  [str "please", str "thank you", str "thanks", str "appreciate", str "grateful",
   str "kindly", str "would you", str "could you", str "may i", str "excuse me",
   str "sorry", str "apologize", str "sincerely", str "regards", str "respectfully",
   str "dear", str "hope", str "look forward", str "best wishes", str "warm regards",
   str "thank you for", str "i appreciate", str "we appreciate", str "much appreciated"]

/-- The list `impolite_phrases` from `check_polite_tone`. -/
def impolite_phrases : List Str :=
  [str "must", str "need to", str "have to", str "should", str "demand", str "require",
   str "immediately", str "asap", str "urgent", str "now", str "right away"]

/-- The greeting word list of `check_polite_tone`. -/
def greetings : List Str := [str "dear", str "hello", str "hi", str "good"]

/-- The closing word list of `check_polite_tone`. -/
def closings : List Str := [str "regards", str "sincerely", str "best", str "thank you"]

/-- Python `sum(1 for phrase in polite_phrases if phrase in text_lower)`. -/
def polite_count (text_lower : Str) : Nat :=
  polite_phrases.countP (fun phrase => containsB phrase text_lower)

/-- Python `sum(1 for phrase in impolite_phrases if phrase in text_lower)`. -/
def impolite_count (text_lower : Str) : Nat :=
  impolite_phrases.countP (fun phrase => containsB phrase text_lower)

/-- Python `any(greeting in text_lower for greeting in [...])`. -/
def has_greeting (text_lower : Str) : Bool :=
  greetings.any (fun greeting => containsB greeting text_lower)

/-- Python `any(closing in text_lower for closing in [...])`. -/
def has_closing (text_lower : Str) : Bool :=
  closings.any (fun closing => containsB closing text_lower)

/-- Function `check_polite_tone` from `evaluation_utils.py`. -/
def check_polite_tone (text : Str) : Bool :=
  let text_lower := lower text
  (decide (2 ≤ polite_count text_lower) ||
      (has_greeting text_lower && has_closing text_lower)) &&
    decide (impolite_count text_lower ≤ polite_count text_lower)

/-- The qualifying tokens of one key point: word tokens of length `> 2`
(`key_words` in `check_key_points_included` / `detailed_evaluation`). -/
def key_words (point_lower : Str) : List Str :=
  (findTokens point_lower).filter (fun word => decide (2 < word.length))

/-- The per-point test of `check_key_points_included`: direct inclusion,
or (a nonempty filtered token list and) some qualifying token included. -/
def point_found (text_lower point : Str) : Bool :=
  let point_lower := lower point
  containsB point_lower text_lower ||
    (!(key_words point_lower).isEmpty &&
      (key_words point_lower).any (fun word => containsB word text_lower))

/-- Function `check_key_points_included` from `evaluation_utils.py`. -/
def check_key_points_included (text : Str) (points : List Str) : Bool :=
  points.all (point_found (lower text))

/-- The dictionary returned by `evaluate_reply`. -/
structure EvalResult where
  all_key_points_included : Bool
  tone_is_polite : Bool

/-- Function `evaluate_reply` from `evaluation_utils.py`. -/
def evaluate_reply (reply : Str) (key_points : List Str) : EvalResult :=
  { all_key_points_included := check_key_points_included reply key_points
    tone_is_polite := check_polite_tone reply }

/-- The per-point test of the missing-points loop of `detailed_evaluation`:
not directly included and no qualifying token included. -/
def point_missing (reply_lower point : Str) : Bool :=
  let point_lower := lower point
  !containsB point_lower reply_lower &&
    !(key_words point_lower).any (fun word => containsB word reply_lower)

/-- The `missing_points` list computed by `detailed_evaluation`. -/
def missing_points (reply : Str) (key_points : List Str) : List Str :=
  key_points.filter (point_missing (lower reply))

/-- Python `f"Missing key points: ..."` with the joined missing points. -/
def missing_note (mp : List Str) : Str :=
  str "Missing key points: " ++ joinSep (str ", ") mp

/-- The politeness suggestion of `detailed_evaluation`. -/
def polite_note : Str :=
  str "Consider adding more polite language (please, thank you, etc.)"

/-- The brevity suggestion of `detailed_evaluation`. -/
def brief_note : Str :=
  str "Reply might be too brief - consider adding more detail"

/-- The dictionary returned by `detailed_evaluation`. -/
structure DetailedResult where
  all_key_points_included : Bool
  tone_is_polite : Bool
  missing_points : List Str
  word_count : Nat
  suggestions : List Str

/-- Function `detailed_evaluation` from `evaluation_utils.py`. -/
def detailed_evaluation (reply : Str) (key_points : List Str) : DetailedResult :=
  let basic := evaluate_reply reply key_points
  let mp := missing_points reply key_points
  let suggestions :=
    (if !mp.isEmpty then [missing_note mp] else []) ++
    (if !basic.tone_is_polite then [polite_note] else []) ++
    (if (pySplit reply).length < 50 then [brief_note] else [])
  { all_key_points_included := basic.all_key_points_included
    tone_is_polite := basic.tone_is_polite
    missing_points := mp
    word_count := (pySplit reply).length
    suggestions := suggestions }

end EvaluationUtils

namespace App

/-- The short-reply suggestion of `evaluate_email` in `app.py`. -/
def detail_note : Str := str "Consider adding more detail"

/-- The long-reply suggestion of `evaluate_email` in `app.py`. -/
def concise_note : Str := str "Consider making the email more concise"

/-- The dictionary returned by `evaluate_email`. -/
structure EmailEval where
  completeness : Bool
  length : Nat
  suggestions : List Str

/-- Function `evaluate_email` from `app.py`. -/
def evaluate_email (email_text : Str) (key_points : List Str) : EmailEval :=
  let len := (pySplit email_text).length
  { completeness := key_points.all (fun point => containsB (lower point) (lower email_text))
    length := len
    suggestions :=
      if len < 50 then [detail_note]
      else if 500 < len then [concise_note]
      else [] }

end App

namespace SimpleApp

/-- Python `key_points_text`: the newline-joined points, each prefixed
with a dash and a space. -/
def key_points_text (key_points : List Str) : Str :=
  joinSep (str "\n") (key_points.map (fun point => str "- " ++ point))

/-- The shape shared by all six f-string templates of `build_prompt` in
`simple_app.py`: a heading line, the bulleted key points, the tone line,
the context line, and a closing instruction paragraph. -/
def template (heading : Str) (key_points : List Str) (tone context : Str)
    (closing : Str) : Str :=
  heading ++ key_points_text key_points ++ str "\n\nTone: " ++ tone ++
    str "\nAdditional Context: " ++ context ++ str "\n\n" ++ closing

/-- Function `build_prompt` from `simple_app.py` (same custom template as the
`build_prompt` of `app.py`, which has no `email_type` parameter). -/
def build_prompt (key_points : List Str) (tone : Str) (context : Str)
    (email_type : Str) : Str :=
  if email_type = str "thank_you" then
    template (str "Write a heartfelt thank you email with the following specifics:\n")
      key_points tone context
      (str "Please write a warm and appreciative email that expresses genuine gratitude. Include specific details about what you\x27re thanking them for and how it impacted you or your work.")
  else if email_type = str "new_article" then
    template (str "Write an engaging email announcing a new article or news with these details:\n")
      key_points tone context
      (str "Please write an informative and engaging email that introduces the new content. Include a compelling subject matter, key highlights, and encourage the reader to engage with the content.")
  else if email_type = str "report_sharing" then
    template (str "Write a professional email for sharing a report with these key elements:\n")
      key_points tone context
      (str "Please write a clear and organized email that introduces the report, highlights key findings or important sections, and provides context for why this report is valuable to the recipient.")
  else if email_type = str "meeting_followup" then
    template (str "Write a comprehensive meeting follow-up email covering:\n")
      key_points tone context
      (str "Please write a structured follow-up email that summarizes key decisions, action items, next steps, and deadlines. Make it clear and actionable for all participants.")
  else if email_type = str "project_update" then
    template (str "Write a detailed project update email including:\n")
      key_points tone context
      (str "Please write an informative project update that covers current progress, achievements, challenges, next milestones, and any support needed. Keep stakeholders well-informed.")
  else
    template (str "Write a professional email with the following key points:\n")
      key_points tone context
      (str "Please write a complete, well-structured email incorporating these points.")

/-- The context label shared by the `simple_app.py` / `app.py` templates and
the `email_utils.py` context block. -/
def context_label : Str := str "Additional Context:"

end SimpleApp

namespace EmailUtils

/-- Python `formatted_points`, the newline-joined bulleted points. -/
def formatted_points (key_points : List Str) : Str :=
  joinSep (str "\n") (key_points.map (fun point => str "• " ++ point))

/-- Python truthiness of the optional `context` argument (`if context:`):
`None` and the empty string are falsy. -/
def truthy : Option Str → Bool
  | none => false
  | some s => !s.isEmpty

/-- The base f-string of `build_prompt` in `email_utils.py`. -/
def base_prompt (key_points : List Str) (tone : Str) : Str :=
  str "\n    Please draft a professional email with the following key points:\n    \n    " ++
    formatted_points key_points ++ str "\n    \n    Tone: " ++ tone ++ str "\n    "

/-- The context f-string appended by `build_prompt` when `context` is truthy. -/
def context_block (context : Str) : Str :=
  str "\n        \n    Additional Context:\n    " ++ context ++ str "\n    "

/-- The closing instruction block appended by `build_prompt`. -/
def ensure_block : Str :=
  str "\n    \n    Please ensure the email:\n    • Has a clear structure with introduction, body, and conclusion\n    • Maintains a professional and courteous tone\n    • Includes all key points naturally in the flow\n    • Uses clear and concise language\n    "

/-- Function `build_prompt` from `email_utils.py` (note the final `prompt.strip()`). -/
def build_prompt (key_points : List Str) (tone : Str) (context : Option Str) : Str :=
  pyStrip (base_prompt key_points tone ++
    ((if truthy context then context_block (context.getD []) else []) ++ ensure_block))

/-- What the leading literal of `base_prompt` leaves behind after `strip()`. -/
def head_text : Str :=
  str "Please draft a professional email with the following key points:\n    \n    "

/-- What the trailing instruction block leaves behind after `strip()`. -/
def tail_text : Str :=
  str "\n    \n    Please ensure the email:\n    • Has a clear structure with introduction, body, and conclusion\n    • Maintains a professional and courteous tone\n    • Includes all key points naturally in the flow\n    • Uses clear and concise language"

/-- Here `build_prompt` is written as an explicit concatenation: the `strip()` only
removes the leading whitespace of the first literal and the trailing
whitespace of the instruction block. -/
theorem build_prompt_eq (key_points : List Str) (tone : Str) (context : Option Str) :
    build_prompt key_points tone context =
      head_text ++
        ((formatted_points key_points ++ (str "\n    \n    Tone: " ++ (tone ++ (str "\n    " ++
          (if truthy context then context_block (context.getD []) else []))))) ++ tail_text) := by
  have ha : (str "\n    Please draft a professional email with the following key points:\n    \n    ").dropWhile isPySpace = head_text := by decide
  have hb : ((ensure_block).reverse.dropWhile isPySpace).reverse = tail_text := by decide
  have hne : (str "\n    Please draft a professional email with the following key points:\n    \n    ").dropWhile isPySpace ≠ [] := by
    rw [ha]; decide
  have hne2 : (ensure_block).reverse.dropWhile isPySpace ≠ [] := by
    intro h
    rw [show (ensure_block).reverse.dropWhile isPySpace = tail_text.reverse from congrArg List.reverse hb ▸ by simp [List.reverse_reverse]] at h
    exact absurd h (by decide)
  unfold build_prompt
  rw [show base_prompt key_points tone ++
      ((if truthy context then context_block (context.getD []) else []) ++ ensure_block) =
      str "\n    Please draft a professional email with the following key points:\n    \n    " ++
        (((formatted_points key_points ++ (str "\n    \n    Tone: " ++ (tone ++ (str "\n    " ++
          (if truthy context then context_block (context.getD []) else [])))))) ++ ensure_block)
    from by simp [base_prompt, List.append_assoc]]
  rw [pyStrip_append_append _ _ _ hne hne2, ha, hb]

end EmailUtils

/-- Each key point sits verbatim inside `key_points_text`. -/
theorem infix_key_points_text {p : Str} {kp : List Str} (hp : p ∈ kp) :
    p <:+: SimpleApp.key_points_text kp := by
  have h1 : p <:+: str "- " ++ p := ⟨str "- ", [], by simp⟩
  exact h1.trans
    (infix_of_mem_joinSep (str "\n") _ _ (List.mem_map_of_mem (fun point => str "- " ++ point) hp))

/-- Anything inside `key_points_text` is inside every `simple_app` template. -/
theorem infix_template_of_kpt {p heading : Str} {kp : List Str} {tone context closing : Str}
    (h : p <:+: SimpleApp.key_points_text kp) :
    p <:+: SimpleApp.template heading kp tone context closing := by
  unfold SimpleApp.template
  exact infix_append_left _ (infix_append_left _ (infix_append_left _ (infix_append_left _
    (infix_append_left _ (infix_append_left _ (infix_append_right _ h))))))

/-- The context label sits inside every `simple_app` template, whatever the
context argument is. -/
theorem context_label_infix_template (heading : Str) (kp : List Str)
    (tone context closing : Str) :
    SimpleApp.context_label <:+: SimpleApp.template heading kp tone context closing := by
  unfold SimpleApp.template
  have h1 : SimpleApp.context_label <:+: str "\nAdditional Context: " :=
    ⟨str "\n", str " ", by decide⟩
  exact infix_append_left _ (infix_append_left _ (infix_append_left _
    (infix_append_right _ (infix_append_left _ h1))))

/-- Function `simple_app.build_prompt` is one of the six templates. -/
theorem build_prompt_cases (kp : List Str) (tone context email_type : Str) :
    ∃ heading closing,
      SimpleApp.build_prompt kp tone context email_type =
        SimpleApp.template heading kp tone context closing := by
  unfold SimpleApp.build_prompt
  split_ifs <;> exact ⟨_, _, rfl⟩

/-- Each key point sits verbatim inside `formatted_points`. -/
theorem infix_formatted_points {p : Str} {kp : List Str} (hp : p ∈ kp) :
    p <:+: EmailUtils.formatted_points kp := by
  have h1 : p <:+: str "• " ++ p := ⟨str "• ", [], by simp⟩
  exact h1.trans
    (infix_of_mem_joinSep (str "\n") _ _ (List.mem_map_of_mem (fun point => str "• " ++ point) hp))

/-- Anything inside `formatted_points` survives into the stripped
`email_utils.build_prompt` output. -/
theorem infix_email_prompt_of_fp {p : Str} {kp : List Str} {tone : Str}
    {context : Option Str} (h : p <:+: EmailUtils.formatted_points kp) :
    p <:+: EmailUtils.build_prompt kp tone context := by
  rw [EmailUtils.build_prompt_eq]
  exact infix_append_right _ (infix_append_left _ (infix_append_left _ h))

/-- The per-point test of the coverage flag and the (negated) per-point test
of the missing-points loop agree: `key_words and any(...)` behaves like
`any(...)` because `any` over an empty list is false. -/
theorem point_found_eq_not_missing (text_lower point : Str) :
    EvaluationUtils.point_found text_lower point =
      !EvaluationUtils.point_missing text_lower point := by
  unfold EvaluationUtils.point_found EvaluationUtils.point_missing
  cases hkw : EvaluationUtils.key_words (lower point) with
  | nil => simp [hkw]
  | cons w ws =>
    simp only [hkw, List.isEmpty_cons, Bool.not_false, Bool.true_and, Bool.not_and,
      Bool.not_not]

/-- Claim C9: the `all_key_points_included` flag computed by `evaluate_reply`
agrees with emptiness of the `missing_points` list computed by
`detailed_evaluation`, for every reply and key-point list. -/
theorem claim_C9 (reply : Str) (key_points : List Str) :
    (EvaluationUtils.evaluate_reply reply key_points).all_key_points_included = true ↔
      (EvaluationUtils.detailed_evaluation reply key_points).missing_points = [] := by
  show EvaluationUtils.check_key_points_included reply key_points = true ↔
    EvaluationUtils.missing_points reply key_points = []
  rw [EvaluationUtils.check_key_points_included, List.all_eq_true,
    EvaluationUtils.missing_points, List.filter_eq_nil_iff]
  constructor
  · intro h point hp
    have := h point hp
    rw [point_found_eq_not_missing] at this
    simp only [Bool.not_eq_true'] at this
    simp [this]
  · intro h point hp
    have := h point hp
    rw [point_found_eq_not_missing]
    simp only [Bool.not_eq_true] at this
    simp [this]

/-- Claim C7: with an empty key-point list, `evaluate_reply` reports full
coverage and `detailed_evaluation` reports no missing points, for every
reply (including the empty one). -/
theorem claim_C7 (reply : Str) :
    (EvaluationUtils.evaluate_reply reply []).all_key_points_included = true ∧
      (EvaluationUtils.detailed_evaluation reply []).missing_points = [] :=
  ⟨rfl, rfl⟩

/-- Claim C8: the evaluator is total — for every reply and key-point list,
`evaluate_reply` and `detailed_evaluation` produce results, and the two
flags of the detailed result are exactly those of the basic one. -/
theorem claim_C8 (reply : Str) (key_points : List Str) :
    ∃ (included polite : Bool) (missing : List Str) (wc : Nat) (sugg : List Str),
      EvaluationUtils.evaluate_reply reply key_points =
        { all_key_points_included := included, tone_is_polite := polite } ∧
      EvaluationUtils.detailed_evaluation reply key_points =
        { all_key_points_included := included, tone_is_polite := polite,
          missing_points := missing, word_count := wc, suggestions := sugg } :=
  ⟨_, _, _, _, _, rfl, rfl⟩

/-- Claim C10: greeting/closing detection is plain substring matching — in
"This is best" the greeting word "hi" matches inside "This" and "best"
satisfies the closing check, so with no polite phrase present at all the
reply still counts as polite. -/
theorem claim_C10 :
    containsB (str "hi") (lower (str "This is best")) = true ∧
      str "hi" ∉ pySplit (lower (str "This is best")) ∧
      EvaluationUtils.polite_count (lower (str "This is best")) = 0 ∧
      EvaluationUtils.has_greeting (lower (str "This is best")) = true ∧
      EvaluationUtils.has_closing (lower (str "This is best")) = true ∧
      (EvaluationUtils.evaluate_reply (str "This is best") []).tone_is_polite = true := by
  refine ⟨by decide, by decide, by decide, by decide, by decide, by decide⟩

/-- Claim C1: a key point is "found" iff the lowercased point is a substring
of the lowercased reply, or else SOME word-boundary token of the point of
length strictly greater than 2 is a substring of the lowercased reply; in
particular `evaluate("We had a great discussion", ["great meeting"])`
reports full coverage. -/
theorem claim_C1 :
    (∀ reply point : Str,
        EvaluationUtils.check_key_points_included reply [point] = true ↔
          (lower point <:+: lower reply ∨
            ∃ t ∈ findTokens (lower point), 2 < t.length ∧ t <:+: lower reply)) ∧
      (EvaluationUtils.evaluate_reply (str "We had a great discussion")
          [str "great meeting"]).all_key_points_included = true := by
  constructor
  · intro reply point
    have hx : EvaluationUtils.check_key_points_included reply [point] =
        EvaluationUtils.point_found (lower reply) point := by
      simp [EvaluationUtils.check_key_points_included]
    rw [hx]
    simp only [EvaluationUtils.point_found]
    rw [Bool.or_eq_true, containsB_iff]
    constructor
    · rintro (hdir | hand)
      · exact Or.inl hdir
      · rw [Bool.and_eq_true] at hand
        obtain ⟨-, hany⟩ := hand
        rcases List.any_eq_true.mp hany with ⟨t, ht, hct⟩
        rcases List.mem_filter.mp ht with ⟨htok, hlen⟩
        exact Or.inr ⟨t, htok, of_decide_eq_true hlen, (containsB_iff t _).mp hct⟩
    · rintro (hdir | ⟨t, htok, hlen, hinf⟩)
      · exact Or.inl hdir
      · refine Or.inr ?_
        rw [Bool.and_eq_true]
        refine ⟨?_, ?_⟩
        · have htm : t ∈ EvaluationUtils.key_words (lower point) :=
            List.mem_filter.mpr ⟨htok, decide_eq_true hlen⟩
          simp [List.isEmpty_iff, List.ne_nil_of_mem htm]
        · exact List.any_eq_true.mpr
            ⟨t, List.mem_filter.mpr ⟨htok, decide_eq_true hlen⟩, (containsB_iff t _).mpr hinf⟩
  · decide

/-- Witness for claim C1 at the example used by the spec. -/
theorem claim_C1_witness :
    lower (str "great meeting") <:+: lower (str "We had a great discussion") ∨
      ∃ t ∈ findTokens (lower (str "great meeting")),
        2 < t.length ∧ t <:+: lower (str "We had a great discussion") :=
  (claim_C1.1 (str "We had a great discussion") (str "great meeting")).mp (by decide)

/-- Claim C2: `tone_is_polite` is true iff
(`polite_count >= 2` or (`has_greeting` and `has_closing`)) and
`impolite_count <= polite_count`, with the greeting/closing signals being
case-insensitive substring tests for the fixed word sets; in particular
`evaluate("You must send this immediately.", [])` is not polite. -/
theorem claim_C2 :
    (∀ reply : Str,
        (EvaluationUtils.evaluate_reply reply []).tone_is_polite = true ↔
          ((2 ≤ EvaluationUtils.polite_count (lower reply) ∨
              ((str "dear" <:+: lower reply ∨ str "hello" <:+: lower reply ∨
                  str "hi" <:+: lower reply ∨ str "good" <:+: lower reply) ∧
                (str "regards" <:+: lower reply ∨ str "sincerely" <:+: lower reply ∨
                  str "best" <:+: lower reply ∨ str "thank you" <:+: lower reply))) ∧
            EvaluationUtils.impolite_count (lower reply) ≤
              EvaluationUtils.polite_count (lower reply))) ∧
      (EvaluationUtils.evaluate_reply
          (str "You must send this immediately.") []).tone_is_polite = false := by
  constructor
  · intro reply
    show EvaluationUtils.check_polite_tone reply = true ↔ _
    simp only [EvaluationUtils.check_polite_tone, EvaluationUtils.has_greeting,
      EvaluationUtils.has_closing, EvaluationUtils.greetings, EvaluationUtils.closings,
      List.any_cons, List.any_nil, Bool.or_false, Bool.and_eq_true, Bool.or_eq_true,
      decide_eq_true_eq, containsB_iff]
  · decide

/-- Witness for claim C2 on a reply whose politeness comes from the
greeting/closing structural signal. -/
theorem claim_C2_witness :
    (2 ≤ EvaluationUtils.polite_count (lower (str "Dear team, best")) ∨
        ((str "dear" <:+: lower (str "Dear team, best") ∨
            str "hello" <:+: lower (str "Dear team, best") ∨
            str "hi" <:+: lower (str "Dear team, best") ∨
            str "good" <:+: lower (str "Dear team, best")) ∧
          (str "regards" <:+: lower (str "Dear team, best") ∨
            str "sincerely" <:+: lower (str "Dear team, best") ∨
            str "best" <:+: lower (str "Dear team, best") ∨
            str "thank you" <:+: lower (str "Dear team, best")))) ∧
      EvaluationUtils.impolite_count (lower (str "Dear team, best")) ≤
        EvaluationUtils.polite_count (lower (str "Dear team, best")) :=
  (claim_C2.1 (str "Dear team, best")).mp (by decide)

theorem containsB_eq_decide (n h : Str) : containsB n h = decide (n <:+: h) := by
  cases hd : decide (n <:+: h)
  · have hni := of_decide_eq_false hd
    cases hcb : containsB n h
    · rfl
    · exact absurd ((containsB_iff n h).mp hcb) hni
  · exact (containsB_iff n h).mpr (of_decide_eq_true hd)

/-- Modelled from the spec sentence "Count case-insensitive occurrences of
each list member as a substring in the reply", read as the claim reads it:
the number of start positions at which `needle` occurs inside the haystack.
Defined only to compare against the `polite_count` of the source. -/
def spec_occurrence_count (needle : Str) : Str → Nat
  | [] => if needle.isEmpty then 1 else 0
  | c :: t => (if needle.isPrefixOf (c :: t) then 1 else 0) + spec_occurrence_count needle t

/-- Counterexample to claim C5: in "Please please" the phrase "please"
occurs twice, yet `polite_count` is 1, not 2 — and consequently the reply is
judged impolite although occurrence counting would reach the 2 threshold. -/
theorem claim_C5_counterexample :
    EvaluationUtils.polite_count (lower (str "Please please")) = 1 ∧
      spec_occurrence_count (str "please") (lower (str "Please please")) = 2 ∧
      (EvaluationUtils.evaluate_reply (str "Please please") []).tone_is_polite = false := by
  refine ⟨by decide, by decide, by decide⟩

/-- Claim C5 as amended: `polite_count` / `impolite_count` count the number
of DISTINCT list members occurring (case-insensitively) as substrings of the
reply — each phrase contributes at most one however often it occurs, so the
counts are bounded by the list lengths; "please" twice still counts 1. -/
theorem claim_C5 :
    (∀ text : Str,
        EvaluationUtils.polite_count text =
          EvaluationUtils.polite_phrases.countP (fun p => decide (p <:+: text)) ∧
        EvaluationUtils.impolite_count text =
          EvaluationUtils.impolite_phrases.countP (fun p => decide (p <:+: text)) ∧
        EvaluationUtils.polite_count text ≤ 24 ∧
        EvaluationUtils.impolite_count text ≤ 11) ∧
      EvaluationUtils.polite_count (lower (str "Please please")) = 1 := by
  constructor
  · intro text
    refine ⟨?_, ?_, ?_, ?_⟩
    · exact List.countP_congr (fun p _ => by rw [containsB_eq_decide p text])
    · exact List.countP_congr (fun p _ => by rw [containsB_eq_decide p text])
    · exact le_trans (List.countP_le_length _) (by decide)
    · exact le_trans (List.countP_le_length _) (by decide)
  · decide

theorem missing_note_ne_brief (mp : List Str) :
    EvaluationUtils.missing_note mp ≠ EvaluationUtils.brief_note := by
  intro h
  have h2 := congrArg List.head? h
  rw [show (EvaluationUtils.missing_note mp).head? = some 'M' from rfl] at h2
  exact absurd h2 (by decide)

/-- A 501-word reply (two polite words, then 499 fillers), used to show the
absent verbose suggestion. -/
def long_reply : Str :=
  joinSep (str " ") (str "please" :: str "thanks" :: List.replicate 499 (str "ok"))

/-- Counterexample to claim C4: a 501-word reply produces NO suggestion at
all from `detailed_evaluation` — the code has no "too verbose" branch. -/
theorem claim_C4_counterexample :
    (EvaluationUtils.detailed_evaluation long_reply []).word_count = 501 ∧
      (EvaluationUtils.detailed_evaluation long_reply []).suggestions = [] := by
  refine ⟨by decide, by decide⟩

/-- Claim C4 as amended: `detailed_evaluation` adds its "too brief" note iff
the whitespace word count is `< 50`, and emits no other note than the
missing-points, politeness and brevity ones (in particular never a verbose
note); the simpler `evaluate_email` of `app.py` is the function with both
length notes — brief iff `< 50`, verbose iff `> 500`. -/
theorem claim_C4 :
    (∀ reply key_points,
        (EvaluationUtils.brief_note ∈
            (EvaluationUtils.detailed_evaluation reply key_points).suggestions ↔
          (pySplit reply).length < 50) ∧
        (∀ s ∈ (EvaluationUtils.detailed_evaluation reply key_points).suggestions,
          s = EvaluationUtils.missing_note (EvaluationUtils.missing_points reply key_points) ∨
            s = EvaluationUtils.polite_note ∨ s = EvaluationUtils.brief_note)) ∧
      (∀ text key_points,
        (App.detail_note ∈ (App.evaluate_email text key_points).suggestions ↔
          (pySplit text).length < 50) ∧
        (App.concise_note ∈ (App.evaluate_email text key_points).suggestions ↔
          500 < (pySplit text).length)) := by
  constructor
  · intro reply key_points
    have hsugg : (EvaluationUtils.detailed_evaluation reply key_points).suggestions =
        (if !(EvaluationUtils.missing_points reply key_points).isEmpty then
            [EvaluationUtils.missing_note (EvaluationUtils.missing_points reply key_points)]
          else []) ++
          (if !(EvaluationUtils.evaluate_reply reply key_points).tone_is_polite then
            [EvaluationUtils.polite_note] else []) ++
          (if (pySplit reply).length < 50 then [EvaluationUtils.brief_note] else []) := rfl
    have hmb := missing_note_ne_brief (EvaluationUtils.missing_points reply key_points)
    have hpb : EvaluationUtils.polite_note ≠ EvaluationUtils.brief_note := by decide
    constructor
    · rw [hsugg]
      split_ifs <;>
        simp_all [List.mem_append, List.mem_singleton, Ne.symm hmb, Ne.symm hpb]
    · intro s hs
      rw [hsugg] at hs
      split_ifs at hs <;> simp [List.mem_append, List.mem_singleton] at hs <;> tauto
  · intro text key_points
    have h : (App.evaluate_email text key_points).suggestions =
        (if (pySplit text).length < 50 then [App.detail_note]
          else if 500 < (pySplit text).length then [App.concise_note] else []) := rfl
    have hdc : App.detail_note ≠ App.concise_note := by decide
    constructor
    · rw [h]
      split_ifs <;> simp_all [hdc, Ne.symm hdc]
    · rw [h]
      split_ifs
      all_goals simp_all [hdc, Ne.symm hdc]
      all_goals omega

/-- Witness for claim C4 on a 2-word reply, which gets the brief note. -/
theorem claim_C4_witness :
    EvaluationUtils.brief_note ∈
      (EvaluationUtils.detailed_evaluation (str "Too short") []).suggestions :=
  (claim_C4.1 (str "Too short") []).1.mpr (by decide)

/-- Counterexample to claim C3: with the empty context, the `simple_app.py`
(and `app.py`) `build_prompt` still embeds the context label in its output. -/
theorem claim_C3_counterexample :
    SimpleApp.context_label <:+:
      SimpleApp.build_prompt [str "x"] (str "formal") [] (str "custom") := by
  obtain ⟨heading, closing, he⟩ :=
    build_prompt_cases [str "x"] (str "formal") [] (str "custom")
  rw [he]
  exact context_label_infix_template heading [str "x"] (str "formal") [] closing

theorem label_infix_email_prompt (key_points : List Str) (tone : Str) (c : Char) (cs : Str) :
    SimpleApp.context_label <:+: EmailUtils.build_prompt key_points tone (some (c :: cs)) := by
  rw [EmailUtils.build_prompt_eq]
  have hred : (if EmailUtils.truthy (some (c :: cs)) then
      EmailUtils.context_block ((some (c :: cs)).getD []) else []) =
      EmailUtils.context_block (c :: cs) := rfl
  rw [hred]
  have hl : SimpleApp.context_label <:+: EmailUtils.context_block (c :: cs) := by
    unfold EmailUtils.context_block
    exact infix_append_left _ (infix_append_left _ ⟨str "\n        \n    ", str "\n    ", by decide⟩)
  exact infix_append_right _ (infix_append_left _ (infix_append_right _ (infix_append_right _
    (infix_append_right _ (infix_append_right _ hl)))))

/-- Claim C3 as amended: only the `email_utils.py` `build_prompt` appends its
context block solely for truthy context (absent and empty context give the
identical, label-free output, any nonempty context brings the label in),
whereas the `simple_app.py` templates embed the "Additional Context:" label
unconditionally, even for the empty context. -/
theorem claim_C3 :
    (∀ key_points tone context email_type,
        SimpleApp.context_label <:+:
          SimpleApp.build_prompt key_points tone context email_type) ∧
      (∀ key_points tone,
        EmailUtils.build_prompt key_points tone none =
          EmailUtils.build_prompt key_points tone (some [])) ∧
      containsB SimpleApp.context_label
        (EmailUtils.build_prompt [str "x"] (str "formal") none) = false ∧
      (∀ key_points tone c cs,
        SimpleApp.context_label <:+:
          EmailUtils.build_prompt key_points tone (some (c :: cs))) := by
  refine ⟨?_, ?_, ?_, ?_⟩
  · intro key_points tone context email_type
    obtain ⟨heading, closing, he⟩ := build_prompt_cases key_points tone context email_type
    rw [he]
    exact context_label_infix_template heading key_points tone context closing
  · intro key_points tone
    rfl
  · decide
  · exact label_infix_email_prompt

/-- Claim C6: every key point occurs verbatim in the output of both
`simple_app.build_prompt` (all six templates) and `email_utils.build_prompt`
(even after its final `strip()`). -/
theorem claim_C6 :
    (∀ key_points tone context email_type (p : Str), p ∈ key_points →
        p <:+: SimpleApp.build_prompt key_points tone context email_type) ∧
      (∀ key_points tone context (p : Str), p ∈ key_points →
        p <:+: EmailUtils.build_prompt key_points tone context) := by
  constructor
  · intro key_points tone context email_type p hp
    obtain ⟨heading, closing, he⟩ := build_prompt_cases key_points tone context email_type
    rw [he]
    exact infix_template_of_kpt (infix_key_points_text hp)
  · intro key_points tone context p hp
    exact infix_email_prompt_of_fp (infix_formatted_points hp)

/-- Witness for claim C6 with a singleton key-point list. -/
theorem claim_C6_witness :
    str "x" <:+: SimpleApp.build_prompt [str "x"] (str "formal") [] (str "custom") ∧
      str "x" <:+: EmailUtils.build_prompt [str "x"] (str "formal") none :=
  ⟨claim_C6.1 [str "x"] (str "formal") [] (str "custom") (str "x") (List.mem_singleton.mpr rfl),
    claim_C6.2 [str "x"] (str "formal") none (str "x") (List.mem_singleton.mpr rfl)⟩

/-- Witness for claim C9 at a concrete covered input. -/
theorem claim_C9_witness :
    (EvaluationUtils.detailed_evaluation (str "send the report") [str "report"]).missing_points
      = [] :=
  (claim_C9 (str "send the report") [str "report"]).mp (by decide)
